/- Verification of the City_Sustain_Mapper core against its specification.

   Shallow embedding conventions:
   * JavaScript numbers are modelled as exact rationals (ℚ).  All the
     arithmetic appearing in the verified claims (sums, products, divisions,
     Math.round / Math.floor / Math.ceil, comparisons against decimal
     literals) is exact on the values involved, so the idealisation does not
     affect any claim below.
   * `Math.round x` is `⌊x + 1/2⌋` (ties toward +∞), `Math.floor` is `⌊·⌋`,
     `Math.ceil` is `⌈·⌉`, and `Number.prototype.toFixed(d)` rounds half away
     from zero at `d` decimal places.
   * Fallible operations return `Except`/`Option`; JavaScript truthiness on a
     possibly-missing number (`!x`) is `truthyQ : Option ℚ → Bool`, false on
     `none` (null/undefined) and on `some 0` (the number 0 is falsy).
   * Stateful code (the backend cache, the throttle timestamp) is modelled by
     explicit state passing; the cooperative event loop of Node.js is
     modelled as an interleaving of the atomic (await-free) segments of the
     running functions.
-/
import Mathlib

set_option maxRecDepth 8000

/-- JavaScript `Math.round`: round half toward positive infinity.
`Rat.floor` is used rather than `⌊·⌋` so that the kernel can evaluate it;
`jsRound_eq_floor` below identifies the two. -/
def jsRound (q : ℚ) : ℤ := (q + 1/2).floor

/-- JavaScript `Math.floor`. -/
def jsFloor (q : ℚ) : ℤ := q.floor

/-- JavaScript `Math.ceil`. -/
def jsCeil (q : ℚ) : ℤ := q.ceil

theorem ratFloor_eq_floor (q : ℚ) : q.floor = ⌊q⌋ := by
  rw [Rat.floor_def, Rat.floor_def']

theorem jsRound_eq_floor (q : ℚ) : jsRound q = ⌊q + 1/2⌋ := by
  rw [jsRound, ratFloor_eq_floor]

/-- JavaScript truthiness of a possibly-absent number: `null`/`undefined`
and `0` are falsy, every other number is truthy. -/
def truthyQ : Option ℚ → Bool
  | none => false
  | some q => decide (q ≠ 0)

/-- Rounding half away from zero, the rounding used by `toFixed` on exact
decimal inputs. -/
def rha (q : ℚ) : ℤ := if 0 ≤ q then (q + 1/2).floor else -(-q + 1/2).floor

/-- Model of `parseFloat(q.toFixed(d))` on an exact rational: round to `d` decimal
places, half away from zero. -/
def toFixedQ (d : ℕ) (q : ℚ) : ℚ := (rha (q * 10 ^ d) : ℚ) / 10 ^ d

/-! ## AQI computation (`calculateAQI`, backend/server.js) -/

/-- One EPA PM2.5 breakpoint band, as in the literal `breakpoints` array of
`calculateAQI`. -/
structure BP where
  cLow : ℚ
  cHigh : ℚ
  iLow : ℚ
  iHigh : ℚ
deriving DecidableEq

/-- The six EPA breakpoint bands hard-coded in `calculateAQI`.  Decimal
constants are written as exact fractions (12.1 = 121/10, …) because the
decimal-literal elaboration for ℚ is irreducible and would block kernel
evaluation. -/
def breakpoints : List BP :=
  [⟨0, 12, 0, 50⟩,
   ⟨121/10, 354/10, 51, 100⟩,
   ⟨355/10, 554/10, 101, 150⟩,
   ⟨555/10, 1504/10, 151, 200⟩,
   ⟨1505/10, 2504/10, 201, 300⟩,
   ⟨2505/10, 5004/10, 301, 500⟩]

/-- The rounded piecewise-linear interpolation performed inside the loop of
`calculateAQI` for a matching band. -/
def interpAQI (bp : BP) (pm25 : ℚ) : ℤ :=
  jsRound ((bp.iHigh - bp.iLow) / (bp.cHigh - bp.cLow) * (pm25 - bp.cLow) + bp.iLow)

/-- The `for … if … return` loop of `calculateAQI`: first band whose closed
interval contains the input. -/
def findBand (pm25 : ℚ) : List BP → Option BP
  | [] => none
  | bp :: rest => if bp.cLow ≤ pm25 ∧ pm25 ≤ bp.cHigh then some bp else findBand pm25 rest

/-- Function `calculateAQI` from backend/server.js. -/
def calculateAQI (pm25 : ℚ) : ℤ :=
  match findBand pm25 breakpoints with
  | some bp => interpAQI bp pm25
  | none => if 5004/10 < pm25 then 500 else 0

example : calculateAQI 12 = 50 := by with_unfolding_all decide
example : calculateAQI (354/10) = 100 := by with_unfolding_all decide
example : calculateAQI 0 = 0 := by with_unfolding_all decide
example : calculateAQI 600 = 500 := by with_unfolding_all decide
example : calculateAQI 20 = 68 := by with_unfolding_all decide

/-- C1: for every PM2.5 concentration lying inside one of the six EPA
breakpoint bands, `calculateAQI` returns the rounded piecewise-linear
interpolation for that band; for input above the highest band
(pm25 > 500.4) it returns 500; and in particular
`calculateAQI 12 = 50`, `calculateAQI 35.4 = 100`, `calculateAQI 0 = 0`
and `calculateAQI 600 = 500`. -/
theorem calculateAQI_spec :
    (∀ (pm25 : ℚ) (bp : BP), bp ∈ breakpoints → bp.cLow ≤ pm25 → pm25 ≤ bp.cHigh →
      calculateAQI pm25 = interpAQI bp pm25) ∧
    (∀ pm25 : ℚ, 5004/10 < pm25 → calculateAQI pm25 = 500) ∧
    calculateAQI 12 = 50 ∧ calculateAQI (354/10) = 100 ∧
    calculateAQI 0 = 0 ∧ calculateAQI 600 = 500 := by
  refine ⟨?_, ?_, ?_, ?_, ?_, ?_⟩
  · intro pm25 bp hmem h1 h2
    simp only [breakpoints, List.mem_cons, List.not_mem_nil, or_false] at hmem
    have hfb : findBand pm25 breakpoints = some bp := by
      rcases hmem with rfl | rfl | rfl | rfl | rfl | rfl <;>
        dsimp only at h1 h2 <;>
        simp only [breakpoints, findBand]
      · rw [if_pos ⟨h1, h2⟩]
      · rw [if_neg (by rintro ⟨-, hc⟩; linarith), if_pos ⟨h1, h2⟩]
      · rw [if_neg (by rintro ⟨-, hc⟩; linarith),
          if_neg (by rintro ⟨-, hc⟩; linarith), if_pos ⟨h1, h2⟩]
      · rw [if_neg (by rintro ⟨-, hc⟩; linarith),
          if_neg (by rintro ⟨-, hc⟩; linarith),
          if_neg (by rintro ⟨-, hc⟩; linarith), if_pos ⟨h1, h2⟩]
      · rw [if_neg (by rintro ⟨-, hc⟩; linarith),
          if_neg (by rintro ⟨-, hc⟩; linarith),
          if_neg (by rintro ⟨-, hc⟩; linarith),
          if_neg (by rintro ⟨-, hc⟩; linarith), if_pos ⟨h1, h2⟩]
      · rw [if_neg (by rintro ⟨-, hc⟩; linarith),
          if_neg (by rintro ⟨-, hc⟩; linarith),
          if_neg (by rintro ⟨-, hc⟩; linarith),
          if_neg (by rintro ⟨-, hc⟩; linarith),
          if_neg (by rintro ⟨-, hc⟩; linarith), if_pos ⟨h1, h2⟩]
    simp only [calculateAQI, hfb]
  · intro pm25 h
    have hfb : findBand pm25 breakpoints = none := by
      simp only [breakpoints, findBand]
      rw [if_neg (by rintro ⟨-, hc⟩; linarith),
        if_neg (by rintro ⟨-, hc⟩; linarith),
        if_neg (by rintro ⟨-, hc⟩; linarith),
        if_neg (by rintro ⟨-, hc⟩; linarith),
        if_neg (by rintro ⟨-, hc⟩; linarith),
        if_neg (by rintro ⟨-, hc⟩; linarith)]
    simp only [calculateAQI, hfb]
    rw [if_pos h]
  · with_unfolding_all decide
  · with_unfolding_all decide
  · with_unfolding_all decide
  · with_unfolding_all decide

/-- Witness for C1: the interpolation clause of `calculateAQI_spec`
instantiated in the second band at PM2.5 = 20. -/
theorem calculateAQI_spec_witness :
    calculateAQI 20 = interpAQI ⟨121/10, 354/10, 51, 100⟩ 20 :=
  calculateAQI_spec.1 20 ⟨121/10, 354/10, 51, 100⟩
    (by with_unfolding_all decide) (by with_unfolding_all decide)
    (by with_unfolding_all decide)

/-! ## Per-building analyzer (`calculateSolarPotential`,
`calculateRainwaterPotential`, backend/server.js)

The solar / precipitation records mirror the objects produced by the
gateway fetch functions; possibly-null numeric fields are `Option ℚ` and
`source` strings are omitted as inert. -/

/-- Result shape of `fetchSolarData` (also the input of
`calculateSolarPotential`). -/
structure SolarData where
  avgIrradiance : Option ℚ
  avgTemperature : Option ℚ
  dataPoints : ℕ
  isReal : Bool
  note : Option String
deriving DecidableEq

/-- Result shape of `fetchPrecipitationData` (also the input of
`calculateRainwaterPotential`). -/
structure PrecipData where
  avgDailyPrecipitation : Option ℚ
  annualPrecipitation : Option ℚ
  dataPoints : ℕ
  isReal : Bool
  note : Option String
deriving DecidableEq

/-- Success shape of `calculateSolarPotential`. -/
structure SolarPotential where
  annualEnergy : ℤ
  avgIrradiance : ℚ
  estimatedPanels : ℤ
  co2Offset : ℤ
  isReal : Bool
deriving DecidableEq

/-- Success shape of `calculateRainwaterPotential`. -/
structure RainwaterPotential where
  annualWater : ℤ
  avgPrecipitation : Option ℚ
  storageTankSize : ℤ
  householdsSupported : ℤ
  isReal : Bool
deriving DecidableEq

/-- Function `calculateSolarPotential` from backend/server.js.  The guard
`!solarData.isReal || !solarData.avgIrradiance` uses JavaScript truthiness,
so a present-but-zero irradiance also takes the error branch.  Constants:
panel efficiency 0.20, performance factor 0.85, 365 days/year. -/
def calculateSolarPotential (area : ℚ) (sd : SolarData) : Except String SolarPotential :=
  if sd.isReal = false ∨ truthyQ sd.avgIrradiance = false then
    .error "Cannot calculate - no real solar data available"
  else
    let g := sd.avgIrradiance.getD 0
    let annualEnergy := area * g * 365 * (20/100) * (85/100)
    .ok ⟨jsRound annualEnergy, g, jsFloor (area / 2), jsRound (annualEnergy * (5/10)), true⟩

/-- Function `calculateRainwaterPotential` from backend/server.js.  Runoff
coefficient 0.9; `annualWater` is rounded for the output field while the
tank size and household count are computed from the unrounded value. -/
def calculateRainwaterPotential (area : ℚ) (pd : PrecipData) : Except String RainwaterPotential :=
  if pd.isReal = false ∨ truthyQ pd.annualPrecipitation = false then
    .error "Cannot calculate - no real precipitation data available"
  else
    let rain := pd.annualPrecipitation.getD 0
    let annualWater := area * rain * (9/10)
    .ok ⟨jsRound annualWater, pd.avgDailyPrecipitation,
      jsCeil (annualWater / 12 / 1000), jsFloor (annualWater / 50000), true⟩

/-- Counterexample to C2: the claim quantifies over every climate sample
with `isReal = true` and non-null `avgIrradiance`.  At the non-null value
`avgIrradiance = 0` (falsy in JavaScript) `calculateSolarPotential` takes
the error branch and returns no `annualEnergy` at all, instead of the
claimed `round(area × 0 × 365 × 0.20 × 0.85) = 0`. -/
theorem calculateSolarPotential_zero_counterexample :
    calculateSolarPotential 1000 ⟨some 0, none, 0, true, none⟩ =
      Except.error "Cannot calculate - no real solar data available" := by
  with_unfolding_all rfl

/-- C2 amended: for every positive roof area and every climate sample with
`isReal = true` whose `avgIrradiance` (resp. `annualPrecipitation`) is
non-null and nonzero, `calculateSolarPotential` returns
`annualEnergy = round(area·g·365·0.20·0.85)` and
`co2Offset = round(0.5 · that energy)`, and `calculateRainwaterPotential`
returns `annualWater = round(area·rain·0.90)` and
`householdsSupported = floor(area·rain·0.90 / 50000)`. -/
theorem calculate_potentials_formulas (area g rain : ℚ) (tmp dAvg : Option ℚ)
    (n m : ℕ) (note1 note2 : Option String)
    (hA : 0 < area) (hg : g ≠ 0) (hr : rain ≠ 0) :
    calculateSolarPotential area ⟨some g, tmp, n, true, note1⟩ =
      .ok ⟨jsRound (area * g * 365 * (20/100) * (85/100)), g, jsFloor (area / 2),
        jsRound (area * g * 365 * (20/100) * (85/100) * (5/10)), true⟩ ∧
    calculateRainwaterPotential area ⟨dAvg, some rain, m, true, note2⟩ =
      .ok ⟨jsRound (area * rain * (9/10)), dAvg,
        jsCeil (area * rain * (9/10) / 12 / 1000),
        jsFloor (area * rain * (9/10) / 50000), true⟩ := by
  constructor
  · simp only [calculateSolarPotential, truthyQ, hg, decide_not, Option.getD_some]
    simp [hg]
  · simp only [calculateRainwaterPotential, truthyQ, hr, decide_not, Option.getD_some]
    simp [hr]

/-- Witness for the amended C2 at the spec scenario: area 1000 m²,
irradiance 5.2 kWh/m²/day, annual rainfall 2200 mm. -/
theorem calculate_potentials_formulas_witness :
    calculateSolarPotential 1000 ⟨some (52/10), none, 0, true, none⟩ =
      .ok ⟨jsRound (1000 * (52/10) * 365 * (20/100) * (85/100)), 52/10, jsFloor (1000 / 2),
        jsRound (1000 * (52/10) * 365 * (20/100) * (85/100) * (5/10)), true⟩ ∧
    calculateRainwaterPotential 1000 ⟨some (602/100), some 2200, 0, true, none⟩ =
      .ok ⟨jsRound (1000 * 2200 * (9/10)), some (602/100),
        jsCeil (1000 * 2200 * (9/10) / 12 / 1000),
        jsFloor (1000 * 2200 * (9/10) / 50000), true⟩ :=
  calculate_potentials_formulas 1000 (52/10) 2200 none (some (602/100)) 0 0 none none
    (by with_unfolding_all decide) (by with_unfolding_all decide)
    (by with_unfolding_all decide)

/-! ## Cluster analysis (`renderPriorityZones` STEP 3, frontend App.js) -/

/-- A building as consumed by the frontend analysis: centroid coordinates
and footprint area. -/
structure Building where
  lat : ℚ
  lng : ℚ
  area : ℚ
deriving DecidableEq

/-- A cluster as produced by `identifyBuildingClusters`: member buildings,
their indices in the input array, and the bounding-box area in km². -/
structure Cluster where
  buildings : List Building
  indices : List ℕ
  areaKm2 : ℚ
deriving DecidableEq

/-- Sub-scores of one analyzed cluster. -/
structure ClusterScores where
  heat : ℚ
  density : ℚ
  green : ℚ
  rooftop : ℚ
  overall : ℚ
deriving DecidableEq

/-- Derived quantities of one analyzed cluster. -/
structure ClusterAnalysis where
  totalArea : ℚ
  avgBuildingSize : ℚ
  largeRoofs : ℕ
  buildingDensity : ℚ
  clusterTemp : ℚ
  scores : ClusterScores
deriving DecidableEq

/-- The body of the `clusters.map` in `renderPriorityZones` (STEP 3),
given the regional baseline temperature `baselineTemp` (the real NASA
`avgTemperature` of the viewport center).  `cluster.areaKm2 || 0.01`
is JavaScript truthiness: an areaKm2 of 0 falls back to 0.01. -/
def analyzeCluster (baselineTemp : ℚ) (c : Cluster) : ClusterAnalysis :=
  let n : ℚ := c.buildings.length
  let totalArea := (c.buildings.map Building.area).sum
  let avgBuildingSize := totalArea / n
  let largeRoofs := (c.buildings.filter (fun b => decide (500 < b.area))).length
  let clusterAreaKm2 := if c.areaKm2 = 0 then 1/100 else c.areaKm2
  let buildingDensity := n / (clusterAreaKm2 * 100)
  let densityFactor := min (buildingDensity / 50) 1
  let sizeFactor := min (avgBuildingSize / 1000) 1
  let estimatedHeatAdjustment := densityFactor * 2 + sizeFactor * 3
  let clusterTemp := baselineTemp + estimatedHeatAdjustment
  let heatRisk := min (max ((clusterTemp - 28) / 10) 0) 1
  let densityRisk := min (buildingDensity / 80) 1
  let greenDeficit := densityRisk
  let rooftopPotential := min ((largeRoofs : ℚ) / 5) 1
  let priorityScore := heatRisk * (35/100) + densityRisk * (25/100) +
    greenDeficit * (25/100) + rooftopPotential * (15/100)
  ⟨totalArea, avgBuildingSize, largeRoofs, buildingDensity, clusterTemp,
    ⟨heatRisk, densityRisk, greenDeficit, rooftopPotential, priorityScore⟩⟩

/-- The heat-risk formula as the specification words it:
`clamp((T − 28)/10, 0, 1)`. -/
def specHeatRisk (T : ℚ) : ℚ := min (max ((T - 28) / 10) 0) 1

/-- The rooftop-potential formula as the specification words it:
`min(largeRoofCount / threshold, 1)` with threshold 5. -/
def specRooftopPotential (largeRoofCount : ℕ) : ℚ := min ((largeRoofCount : ℚ) / 5) 1

/-- Count of member buildings whose area exceeds 500 m². -/
def largeRoofCount (c : Cluster) : ℕ :=
  (c.buildings.filter (fun b => decide (500 < b.area))).length

/-- C3: for every cluster analyzed by the priority-zone pass with a real
regional baseline temperature, the composite score equals
`0.35·heatRisk + 0.25·densityRisk + 0.25·greenDeficit +
0.15·rooftopPotential`, where `heatRisk = clamp((clusterTemp − 28)/10, 0, 1)`
and `rooftopPotential = min(n/5, 1)` with `n` the number of member
buildings of area > 500 m². -/
theorem analyzeCluster_priorityScore (baselineTemp : ℚ) (c : Cluster) :
    (analyzeCluster baselineTemp c).scores.overall =
      (35/100) * specHeatRisk (analyzeCluster baselineTemp c).clusterTemp +
      (25/100) * (analyzeCluster baselineTemp c).scores.density +
      (25/100) * (analyzeCluster baselineTemp c).scores.green +
      (15/100) * specRooftopPotential (largeRoofCount c) ∧
    (analyzeCluster baselineTemp c).scores.heat =
      specHeatRisk (analyzeCluster baselineTemp c).clusterTemp ∧
    (analyzeCluster baselineTemp c).scores.green =
      (analyzeCluster baselineTemp c).scores.density ∧
    (analyzeCluster baselineTemp c).scores.rooftop =
      specRooftopPotential (largeRoofCount c) := by
  refine ⟨?_, ?_, ?_, ?_⟩ <;>
    simp only [analyzeCluster, specHeatRisk, specRooftopPotential, largeRoofCount] <;>
    ring

/-! ## Building clustering (`identifyBuildingClusters`, frontend App.js) -/

/-- Squared planar-degree distance between two building centroids. -/
def dist2 (b o : Building) : ℚ := (b.lat - o.lat) ^ 2 + (b.lng - o.lng) ^ 2

/-- The proximity test `Math.sqrt(dist2) < maxDistance` of the source,
expressed without square roots: since `dist2 ≥ 0`, the real inequality
`sqrt(dist2) < m` holds exactly when `0 < m` and `dist2 < m²`. -/
def near (b o : Building) (m : ℚ) : Bool := decide (0 < m ∧ dist2 b o < m ^ 2)

/-- Index the building array, pairing each building with its position,
as the `forEach((building, idx))` callbacks see it. -/
def enumF : ℕ → List Building → List (ℕ × Building)
  | _, [] => []
  | k, x :: xs => (k, x) :: enumF (k + 1) xs

/-- The inner `buildings.forEach` of `identifyBuildingClusters`: walk the
whole indexed array, collect every not-yet-visited building within
`maxDistance` of the seed, and mark it visited as it is collected. -/
def addNearby (seed : Building) (m : ℚ) :
    List (ℕ × Building) → List ℕ → List (ℕ × Building) × List ℕ
  | [], visited => ([], visited)
  | (j, o) :: rest, visited =>
    if j ∈ visited then addNearby seed m rest visited
    else if near seed o m then
      let r := addNearby seed m rest (j :: visited)
      ((j, o) :: r.1, r.2)
    else addNearby seed m rest visited

/-- Largest element of a coordinate list (`Math.max(...xs)`; the empty
case does not arise for retained clusters). -/
def maxList : List ℚ → ℚ
  | [] => 0
  | x :: xs => xs.foldl max x

/-- Smallest element of a coordinate list (`Math.min(...xs)`). -/
def minList : List ℚ → ℚ
  | [] => 0
  | x :: xs => xs.foldl min x

/-- Package a member list as the emitted cluster object: buildings,
indices, and the lat/lng bounding-box area in km² via the fixed
111 km/degree factor. -/
def mkCluster (members : List (ℕ × Building)) : Cluster :=
  let bs := members.map Prod.snd
  let lats := bs.map Building.lat
  let lngs := bs.map Building.lng
  ⟨bs, members.map Prod.fst,
    (maxList lats - minList lats) * (maxList lngs - minList lngs) * 111 * 111⟩

/-- The outer `buildings.forEach` of `identifyBuildingClusters`: each
unvisited building seeds a cluster, gathers all unvisited buildings within
`maxDistance`, and the cluster is emitted only when it has ≥ 3 members.
Visited marks persist whether or not the cluster is emitted. -/
def clusterLoop (all : List (ℕ × Building)) (m : ℚ) :
    List (ℕ × Building) → List ℕ → List (List (ℕ × Building))
  | [], _ => []
  | (i, b) :: rest, visited =>
    if i ∈ visited then clusterLoop all m rest visited
    else
      let r := addNearby b m all (i :: visited)
      let members := (i, b) :: r.1
      if 3 ≤ members.length then members :: clusterLoop all m rest r.2
      else clusterLoop all m rest r.2

/-- Function `identifyBuildingClusters` from frontend App.js. -/
def identifyBuildingClusters (buildings : List Building) (m : ℚ) : List Cluster :=
  (clusterLoop (enumF 0 buildings) m (enumF 0 buildings) []).map mkCluster

example :
    identifyBuildingClusters
      [⟨0, 0, 100⟩, ⟨0, 0, 100⟩, ⟨0, 0, 100⟩] 1 =
    [⟨[⟨0, 0, 100⟩, ⟨0, 0, 100⟩, ⟨0, 0, 100⟩], [0, 1, 2], 0⟩] := by
  with_unfolding_all rfl

example :
    identifyBuildingClusters [⟨0, 0, 100⟩, ⟨0, 0, 100⟩, ⟨5, 5, 100⟩] 1 = [] := by
  with_unfolding_all rfl

theorem dist2_comm (b o : Building) : dist2 b o = dist2 o b := by
  unfold dist2; ring

theorem near_comm (b o : Building) (m : ℚ) : near b o m = near o b m := by
  simp only [near, dist2_comm]

theorem addNearby_mem (seed : Building) (m : ℚ) :
    ∀ (l : List (ℕ × Building)) (visited : List ℕ) (p : ℕ × Building),
      p ∈ (addNearby seed m l visited).1 →
      p ∈ l ∧ p.1 ∉ visited ∧ near seed p.2 m = true := by
  intro l
  induction l with
  | nil => intro visited p hp; simp [addNearby] at hp
  | cons q rest ih =>
    intro visited p hp
    obtain ⟨j, o⟩ := q
    simp only [addNearby] at hp
    by_cases hj : j ∈ visited
    · rw [if_pos hj] at hp
      obtain ⟨h1, h2, h3⟩ := ih visited p hp
      exact ⟨List.mem_cons_of_mem _ h1, h2, h3⟩
    · rw [if_neg hj] at hp
      by_cases hn : near seed o m = true
      · rw [if_pos hn] at hp
        rcases List.mem_cons.mp hp with rfl | hp2
        · exact ⟨List.mem_cons_self _ _, hj, hn⟩
        · obtain ⟨h1, h2, h3⟩ := ih (j :: visited) p hp2
          exact ⟨List.mem_cons_of_mem _ h1,
            fun hv => h2 (List.mem_cons_of_mem _ hv), h3⟩
      · rw [if_neg hn] at hp
        obtain ⟨h1, h2, h3⟩ := ih visited p hp
        exact ⟨List.mem_cons_of_mem _ h1, h2, h3⟩

theorem clusterLoop_spec (all : List (ℕ × Building)) (m : ℚ) :
    ∀ (rest : List (ℕ × Building)) (visited : List ℕ) (cm : List (ℕ × Building)),
      (∀ p ∈ rest, p ∈ all) → cm ∈ clusterLoop all m rest visited →
      3 ≤ cm.length ∧ ∃ i b t, cm = (i, b) :: t ∧ (i, b) ∈ all ∧
        ∀ p ∈ t, p ∈ all ∧ p.1 ≠ i ∧ near b p.2 m = true := by
  intro rest
  induction rest with
  | nil => intro visited cm _ hcm; simp [clusterLoop] at hcm
  | cons q rest ih =>
    intro visited cm hrest hcm
    obtain ⟨i, b⟩ := q
    simp only [clusterLoop] at hcm
    by_cases hi : i ∈ visited
    · rw [if_pos hi] at hcm
      exact ih visited cm (fun p hp => hrest p (List.mem_cons_of_mem _ hp)) hcm
    · rw [if_neg hi] at hcm
      by_cases h3 : 3 ≤ ((i, b) :: (addNearby b m all (i :: visited)).1).length
      · rw [if_pos h3] at hcm
        rcases List.mem_cons.mp hcm with rfl | hcm2
        · refine ⟨h3, i, b, (addNearby b m all (i :: visited)).1, rfl,
            hrest _ (List.mem_cons_self _ _), ?_⟩
          intro p hp
          obtain ⟨h1, h2, hnear⟩ := addNearby_mem b m all (i :: visited) p hp
          exact ⟨h1, fun he => h2 (by rw [he]; exact List.mem_cons_self _ _), hnear⟩
        · exact ih _ cm (fun p hp => hrest p (List.mem_cons_of_mem _ hp)) hcm2
      · rw [if_neg h3] at hcm
        exact ih _ cm (fun p hp => hrest p (List.mem_cons_of_mem _ hp)) hcm

theorem enumF_mem :
    ∀ (l : List Building) (k : ℕ) (p : ℕ × Building),
      p ∈ enumF k l → k ≤ p.1 ∧ l.get? (p.1 - k) = some p.2 := by
  intro l
  induction l with
  | nil => intro k p hp; simp [enumF] at hp
  | cons x xs ih =>
    intro k p hp
    simp only [enumF, List.mem_cons] at hp
    rcases hp with rfl | hp
    · simp
    · obtain ⟨h1, h2⟩ := ih (k + 1) p hp
      refine ⟨by omega, ?_⟩
      have hs : p.1 - k = (p.1 - (k + 1)) + 1 := by omega
      rw [hs]
      simpa using h2

/-- C4: every cluster emitted by `identifyBuildingClusters` has at least 3
member buildings, and every member building has some other input building
(distinct index) within the distance threshold of its centroid — so an
isolated building never appears in any returned cluster. -/
theorem identifyBuildingClusters_spec (bs : List Building) (m : ℚ) (c : Cluster)
    (hc : c ∈ identifyBuildingClusters bs m) :
    3 ≤ c.buildings.length ∧
    ∀ k ∈ c.indices, ∃ j o bk, j ≠ k ∧ bs.get? j = some o ∧
      bs.get? k = some bk ∧ near bk o m = true := by
  obtain ⟨cm, hcm, rfl⟩ := List.mem_map.mp hc
  obtain ⟨h3, i, b, t, rfl, hib, ht⟩ :=
    clusterLoop_spec (enumF 0 bs) m (enumF 0 bs) [] cm (fun p hp => hp) hcm
  constructor
  · simpa [mkCluster] using h3
  · intro k hk
    simp only [mkCluster, List.mem_map] at hk
    obtain ⟨p, hp, rfl⟩ := hk
    rcases List.mem_cons.mp hp with rfl | hpt
    · have htne : t ≠ [] := by
        intro h
        rw [h] at h3
        simp at h3
      obtain ⟨q, t2, rfl⟩ := List.exists_cons_of_ne_nil htne
      obtain ⟨hq_all, hq_ne, hq_near⟩ := ht q (List.mem_cons_self _ _)
      have h_i := (enumF_mem bs 0 (i, b) hib).2
      have h_q := (enumF_mem bs 0 q hq_all).2
      exact ⟨q.1, q.2, b, hq_ne, by simpa using h_q, by simpa using h_i, hq_near⟩
    · obtain ⟨hp_all, hp_ne, hp_near⟩ := ht p hpt
      have h_i := (enumF_mem bs 0 (i, b) hib).2
      have h_p := (enumF_mem bs 0 p hp_all).2
      refine ⟨i, b, p.2, fun he => hp_ne he.symm, by simpa using h_i,
        by simpa using h_p, ?_⟩
      rw [near_comm]
      exact hp_near

/-- Witness for C4 at a concrete input: three coincident buildings form
one cluster with indices `[0, 1, 2]`. -/
theorem identifyBuildingClusters_spec_witness :
    3 ≤ (Cluster.mk [⟨0, 0, 100⟩, ⟨0, 0, 100⟩, ⟨0, 0, 100⟩] [0, 1, 2] 0).buildings.length ∧
    ∀ k ∈ (Cluster.mk [⟨0, 0, 100⟩, ⟨0, 0, 100⟩, ⟨0, 0, 100⟩] [0, 1, 2] 0).indices,
      ∃ j o bk, j ≠ k ∧
        ([⟨0, 0, 100⟩, ⟨0, 0, 100⟩, ⟨0, 0, 100⟩] : List Building).get? j = some o ∧
        ([⟨0, 0, 100⟩, ⟨0, 0, 100⟩, ⟨0, 0, 100⟩] : List Building).get? k = some bk ∧
        near bk o 1 = true :=
  identifyBuildingClusters_spec [⟨0, 0, 100⟩, ⟨0, 0, 100⟩, ⟨0, 0, 100⟩] 1
    ⟨[⟨0, 0, 100⟩, ⟨0, 0, 100⟩, ⟨0, 0, 100⟩], [0, 1, 2], 0⟩
    (by with_unfolding_all decide)

/-! ## Throttle (`throttleRequest`, backend/server.js)

`throttleRequest` reads the shared `lastRequestTime`, possibly awaits a
`setTimeout`, and only after resuming writes `lastRequestTime = Date.now()`
and lets the caller dispatch its upstream request.  In the Node.js event
loop each await-free segment is atomic, so the function contributes two
atomic segments when it sleeps: the entry segment (read the timestamp and
compute the wake time `lastRequestTime + MIN_REQUEST_INTERVAL`) and the
resume segment (write the timestamp; the caller dispatches immediately
after).  When no sleep is needed the whole call is a single atomic segment.
The model below runs two concurrent callers A and B over this semantics;
times are integer milliseconds. -/

/-- Program counter of one caller going through `throttleRequest`. -/
inductive ThrottlePC where
  | idle : ThrottlePC
  | sleeping : ℤ → ThrottlePC
  | dispatched : ℤ → ThrottlePC
deriving DecidableEq

/-- Shared throttle state plus the two callers: the module-level
`lastRequestTime`, the current wall clock, and the progress of each caller. -/
structure ThrottleState where
  last : ℤ
  clock : ℤ
  a : ThrottlePC
  b : ThrottlePC
deriving DecidableEq

/-- Minimum spacing the throttle is meant to enforce (ms). -/
def MIN_REQUEST_INTERVAL : ℤ := 500

/-- Entry segment of `throttleRequest` at time `t`: if less than the
minimum interval has elapsed since `last`, sleep until
`last + MIN_REQUEST_INTERVAL` (leaving `last` unchanged); otherwise write
`last := t` and dispatch at once. -/
def throttleEnter (last t : ℤ) : ℤ × ThrottlePC :=
  if t - last < MIN_REQUEST_INTERVAL then
    (last, ThrottlePC.sleeping (last + MIN_REQUEST_INTERVAL))
  else
    (t, ThrottlePC.dispatched t)

/-- Resume segment at time `t`: a sleeping caller whose timer has expired
writes `last := Date.now() = t` and dispatches. -/
def throttleResume (pc : ThrottlePC) (t : ℤ) : Option (ℤ × ThrottlePC) :=
  match pc with
  | ThrottlePC.sleeping w => if w ≤ t then some (t, ThrottlePC.dispatched t) else none
  | _ => none

/-- One scheduled event: caller A or B enters or resumes at a given time. -/
inductive ThrottleEv where
  | enterA : ℤ → ThrottleEv
  | enterB : ℤ → ThrottleEv
  | resumeA : ℤ → ThrottleEv
  | resumeB : ℤ → ThrottleEv
deriving DecidableEq

/-- Small-step semantics of the two-caller throttle system.  Events must
carry non-decreasing times; an event that is not enabled rejects the
schedule. -/
def throttleStep (s : ThrottleState) (e : ThrottleEv) : Option ThrottleState :=
  match e with
  | ThrottleEv.enterA t =>
    if s.clock ≤ t ∧ s.a = ThrottlePC.idle then
      let r := throttleEnter s.last t
      some ⟨r.1, t, r.2, s.b⟩
    else none
  | ThrottleEv.enterB t =>
    if s.clock ≤ t ∧ s.b = ThrottlePC.idle then
      let r := throttleEnter s.last t
      some ⟨r.1, t, s.a, r.2⟩
    else none
  | ThrottleEv.resumeA t =>
    if s.clock ≤ t then
      match throttleResume s.a t with
      | some r => some ⟨r.1, t, r.2, s.b⟩
      | none => none
    else none
  | ThrottleEv.resumeB t =>
    if s.clock ≤ t then
      match throttleResume s.b t with
      | some r => some ⟨r.1, t, s.a, r.2⟩
      | none => none
    else none

/-- Run a schedule of events from a state. -/
def throttleRun (s : ThrottleState) : List ThrottleEv → Option ThrottleState
  | [] => some s
  | e :: es =>
    match throttleStep s e with
    | some s2 => throttleRun s2 es
    | none => none

/-- The racing schedule: with `lastRequestTime = 800`, callers A and B both
enter `throttleRequest` at t = 1000 (e.g. two of the 121 concurrent
`fetchTemperaturePoint` calls issued by `Promise.all` in the heat-map
endpoint), before either timer fires; both compute the same wake time
1300 and both dispatch when their timers fire. -/
def throttleRaceSchedule : List ThrottleEv :=
  [ThrottleEv.enterA 1000, ThrottleEv.enterB 1000,
   ThrottleEv.resumeA 1300, ThrottleEv.resumeB 1300]

/-- C5 (refuted; the code races): the schedule above is accepted by the
step semantics of `throttleRequest` and ends with both callers dispatching
their upstream requests at the same instant t = 1300, i.e. with
inter-dispatch spacing 0 < MIN_REQUEST_INTERVAL.  The read of
`lastRequestTime` and its later write straddle the `await`, so the shared
timestamp does not serialize concurrent callers. -/
theorem throttleRequest_race :
    throttleRun ⟨800, 800, ThrottlePC.idle, ThrottlePC.idle⟩ throttleRaceSchedule =
      some ⟨1300, 1300, ThrottlePC.dispatched 1300, ThrottlePC.dispatched 1300⟩ ∧
    ¬ (MIN_REQUEST_INTERVAL ≤ 1300 - 1300) := by
  constructor
  · with_unfolding_all rfl
  · with_unfolding_all decide

/-! ## Upstream gateway: cache and fetch functions (backend/server.js)

The backend keeps one `Map` from string keys of the form
type tag, underscore, lat.toFixed(3), underscore, lng.toFixed(3) to
data-and-timestamp entries.  The key is modelled structurally as the
query-type tag plus the two coordinates quantized to 3 decimals; the map
as an insertion-ordered association list (`Map.set` of an existing key
keeps its position, a new key appends at the end, and the size-1000
eviction deletes the first key in insertion order). -/

/-- Quantized cache key produced by `getCacheKey`. -/
structure CacheKey where
  qtype : String
  lat3 : ℤ
  lng3 : ℤ
deriving DecidableEq

/-- Function `getCacheKey` from backend/server.js: type tag plus coordinates
rounded to 3 decimal places (`toFixed(3)`). -/
def getCacheKey (qtype : String) (lat lng : ℚ) : CacheKey :=
  ⟨qtype, rha (lat * 1000), rha (lng * 1000)⟩

/-- One data-and-timestamp entry of the backend cache `Map`. -/
structure CacheEntry (α : Type) where
  key : CacheKey
  data : α
  ts : ℤ
deriving DecidableEq

/-- Constant `CACHE_DURATION` (ms). -/
def CACHE_DURATION : ℤ := 86400000

/-- Model of `Map.get`: first (unique) entry with the given key. -/
def findEntry (key : CacheKey) : List (CacheEntry α) → Option (CacheEntry α)
  | [] => none
  | e :: rest => if e.key = key then some e else findEntry key rest

/-- Function `getFromCache`: a stored entry is returned only when it is younger
than `CACHE_DURATION`. -/
def getFromCache (cache : List (CacheEntry α)) (key : CacheKey) (now : ℤ) : Option α :=
  match findEntry key cache with
  | some e => if now - e.ts < CACHE_DURATION then some e.data else none
  | none => none

/-- Model of `Map.set`: overwrite an existing key in place, else append. -/
def setEntry (key : CacheKey) (data : α) (now : ℤ) :
    List (CacheEntry α) → List (CacheEntry α)
  | [] => [⟨key, data, now⟩]
  | e :: rest =>
    if e.key = key then ⟨key, data, now⟩ :: rest
    else e :: setEntry key data now rest

/-- Function `setCache`: insert, then evict the insertion-oldest entry when the
size exceeds 1000. -/
def setCache (cache : List (CacheEntry α)) (key : CacheKey) (data : α) (now : ℤ) :
    List (CacheEntry α) :=
  let c := setEntry key data now cache
  if 1000 < c.length then c.tail else c

/-- Result of one gateway fetch call: the returned record, the cache
state it leaves behind, and whether an upstream request was attempted. -/
structure FetchOut (α : Type) where
  result : α
  cache : List (CacheEntry α)
  called : Bool

/-- Parsed NASA POWER payload: the daily irradiance and temperature
series (values may be the -999 missing sentinel of the provider). -/
structure SolarPayload where
  irradianceSeries : List ℚ
  tempSeries : List ℚ
deriving DecidableEq

/-- Average of a daily series after dropping -999 sentinels, as computed
by `fetchSolarData` / `fetchTemperaturePoint`.  (On an all-sentinel series
JavaScript produces NaN where ℚ division yields 0; no claim depends on
that case.) -/
def avgValid (vs : List ℚ) : ℚ :=
  let valid := vs.filter (fun v => decide (v ≠ -999))
  valid.sum / valid.length

/-- Function `fetchSolarData` from backend/server.js.  `upstream` is the outcome of
the axios call (`Except.error` covers timeout, non-2xx and malformed
payload, all caught by the catch block of the function). -/
def fetchSolarData (upstream : Except String SolarPayload) (now : ℤ)
    (cache : List (CacheEntry SolarData)) (lat lng : ℚ) : FetchOut SolarData :=
  let key := getCacheKey "solar" lat lng
  match getFromCache cache key now with
  | some r => ⟨r, cache, false⟩
  | none =>
    match upstream with
    | Except.ok p =>
      let r : SolarData :=
        ⟨some (avgValid p.irradianceSeries), some (avgValid p.tempSeries),
          (p.irradianceSeries.filter (fun v => decide (v ≠ -999))).length, true, none⟩
      ⟨r, setCache cache key r now, true⟩
    | Except.error msg =>
      ⟨⟨none, none, 0, false, some ("API Error: " ++ msg)⟩, cache, true⟩

/-- Result shape of `fetchTemperaturePoint`. -/
structure TempData where
  avgTemperature : Option ℚ
  isReal : Bool
  note : Option String
deriving DecidableEq

/-- Function `fetchTemperaturePoint` from backend/server.js. -/
def fetchTemperaturePoint (upstream : Except String SolarPayload) (now : ℤ)
    (cache : List (CacheEntry TempData)) (lat lng : ℚ) : FetchOut TempData :=
  let key := getCacheKey "temp" lat lng
  match getFromCache cache key now with
  | some r => ⟨r, cache, false⟩
  | none =>
    match upstream with
    | Except.ok p =>
      let r : TempData := ⟨some (avgValid p.tempSeries), true, none⟩
      ⟨r, setCache cache key r now, true⟩
    | Except.error msg => ⟨⟨none, false, some msg⟩, cache, true⟩

/-- The fixed regional fallback constant of `fetchPrecipitationData`
(mm/year). -/
def typicalBangladeshRainfall : ℚ := 2200

/-- Function `fetchPrecipitationData` from backend/server.js.  `upstream` is the
daily `precipitation_sum` series (entries may be null); `Except.error`
covers network failure and the in-try `throw` on a malformed response
structure, both landing in the same catch block.  The catch block returns
the Bangladesh fallback record without writing it to the cache. -/
def fetchPrecipitationData (upstream : Except String (List (Option ℚ))) (now : ℤ)
    (cache : List (CacheEntry PrecipData)) (lat lng : ℚ) : FetchOut PrecipData :=
  let key := getCacheKey "precip" lat lng
  match getFromCache cache key now with
  | some r => ⟨r, cache, false⟩
  | none =>
    match upstream with
    | Except.ok daily =>
      let total := (daily.map (fun v => v.getD 0)).sum
      let avgDaily := total / daily.length
      let annual := avgDaily * 365
      let r : PrecipData :=
        ⟨some (toFixedQ 2 avgDaily), some (toFixedQ 0 annual), daily.length, true, none⟩
      ⟨r, setCache cache key r now, true⟩
    | Except.error msg =>
      ⟨⟨some (toFixedQ 2 (typicalBangladeshRainfall / 365)),
          some typicalBangladeshRainfall, 0, false,
          some (if msg = "429"
            then "Rate limit reached. Using regional average."
            else "Using regional average rainfall data.")⟩,
        cache, true⟩

example :
    (fetchPrecipitationData (Except.error "timeout") 0 [] (238/10) (904/10)).result.isReal
      = false := by
  with_unfolding_all rfl

example :
    (fetchSolarData (Except.ok ⟨[5, -999, 6], [30, -999]⟩) 0 [] 1 2).result.avgIrradiance
      = some (11/2) := by
  with_unfolding_all rfl

theorem findEntry_setEntry (k : CacheKey) (d : α) (now : ℤ) :
    ∀ cache : List (CacheEntry α),
      findEntry k (setEntry k d now cache) = some ⟨k, d, now⟩ := by
  intro cache
  induction cache with
  | nil => simp [setEntry, findEntry]
  | cons e rest ih =>
    simp only [setEntry]
    by_cases he : e.key = k
    · rw [if_pos he]; simp [findEntry]
    · rw [if_neg he]
      simp only [findEntry]
      rw [if_neg he]
      exact ih

theorem findEntry_none (k : CacheKey) :
    ∀ l : List (CacheEntry α), (∀ e ∈ l, e.key ≠ k) → findEntry k l = none := by
  intro l
  induction l with
  | nil => intro _; rfl
  | cons e rest ih =>
    intro h
    simp only [findEntry]
    rw [if_neg (h e (List.mem_cons_self _ _))]
    exact ih (fun x hx => h x (List.mem_cons_of_mem _ hx))

theorem findEntry_append_of_none (k : CacheKey) (l2 : List (CacheEntry α)) :
    ∀ l : List (CacheEntry α), findEntry k l = none →
      findEntry k (l ++ l2) = findEntry k l2 := by
  intro l
  induction l with
  | nil => intro _; simp
  | cons e rest ih =>
    intro h
    rw [List.cons_append]
    simp only [findEntry] at h ⊢
    by_cases he : e.key = k
    · rw [if_pos he] at h; simp at h
    · rw [if_neg he] at h ⊢
      exact ih h

theorem setEntry_length_of_mem (k : CacheKey) (d : α) (now : ℤ) :
    ∀ l : List (CacheEntry α), (∃ e ∈ l, e.key = k) →
      (setEntry k d now l).length = l.length := by
  intro l
  induction l with
  | nil => rintro ⟨e, he, -⟩; simp at he
  | cons e rest ih =>
    rintro ⟨f, hf, hfk⟩
    simp only [setEntry]
    by_cases he : e.key = k
    · rw [if_pos he]; simp
    · rw [if_neg he]
      rcases List.mem_cons.mp hf with rfl | hf2
      · exact absurd hfk he
      · simp only [List.length_cons]
        rw [ih ⟨f, hf2, hfk⟩]

theorem setEntry_of_not_mem (k : CacheKey) (d : α) (now : ℤ) :
    ∀ l : List (CacheEntry α), (∀ e ∈ l, e.key ≠ k) →
      setEntry k d now l = l ++ [⟨k, d, now⟩] := by
  intro l
  induction l with
  | nil => intro _; rfl
  | cons e rest ih =>
    intro h
    simp only [setEntry]
    rw [if_neg (h e (List.mem_cons_self _ _)),
      ih (fun x hx => h x (List.mem_cons_of_mem _ hx))]
    simp

/-- A fresh `setCache` write is immediately readable: the new entry is
never the one evicted (overwrites keep the size, and a genuinely new key
is appended at the end while eviction removes the head). -/
theorem getFromCache_setCache (k : CacheKey) (d : α) (t₁ t₂ : ℤ)
    (cache : List (CacheEntry α)) (hsize : cache.length ≤ 1000)
    (httl : t₂ - t₁ < CACHE_DURATION) :
    getFromCache (setCache cache k d t₁) k t₂ = some d := by
  by_cases hmem : ∃ e ∈ cache, e.key = k
  · have hlen := setEntry_length_of_mem k d t₁ cache hmem
    simp only [setCache]
    rw [if_neg (by omega)]
    simp only [getFromCache]
    rw [findEntry_setEntry]
    simp [httl]
  · push_neg at hmem
    have hset := setEntry_of_not_mem k d t₁ cache hmem
    simp only [setCache]
    rw [hset]
    by_cases hev : 1000 < (cache ++ [(⟨k, d, t₁⟩ : CacheEntry α)]).length
    · have hlen : cache.length = 1000 := by
        simp only [List.length_append, List.length_singleton] at hev
        omega
      obtain ⟨e, cs, rfl⟩ : ∃ e cs, cache = e :: cs := by
        cases cache with
        | nil => simp at hlen
        | cons e cs => exact ⟨e, cs, rfl⟩
      rw [if_pos hev]
      simp only [List.cons_append, List.tail_cons]
      simp only [getFromCache]
      rw [findEntry_append_of_none k _ cs
        (findEntry_none k cs (fun x hx => hmem x (List.mem_cons_of_mem _ hx)))]
      simp [findEntry, httl]
    · rw [if_neg hev]
      simp only [getFromCache]
      rw [findEntry_append_of_none k _ cache (findEntry_none k cache hmem)]
      simp [findEntry, httl]

/-- C6: two queries of the same type whose coordinates quantize to the
same 3-decimal cache key, the first a cache miss answered by the upstream
provider, the second issued within the TTL: the second performs no
upstream call and returns exactly the record the first one stored. -/
theorem fetchSolarData_cache_idempotent (p : SolarPayload)
    (up2 : Except String SolarPayload) (cache : List (CacheEntry SolarData))
    (t₁ t₂ : ℤ) (lat lng lat2 lng2 : ℚ)
    (hkey : getCacheKey "solar" lat2 lng2 = getCacheKey "solar" lat lng)
    (hmiss : getFromCache cache (getCacheKey "solar" lat lng) t₁ = none)
    (hsize : cache.length ≤ 1000) (httl : t₂ - t₁ < CACHE_DURATION) :
    (fetchSolarData (Except.ok p) t₁ cache lat lng).called = true ∧
    (fetchSolarData up2 t₂ (fetchSolarData (Except.ok p) t₁ cache lat lng).cache
        lat2 lng2).called = false ∧
    (fetchSolarData up2 t₂ (fetchSolarData (Except.ok p) t₁ cache lat lng).cache
        lat2 lng2).result =
      (fetchSolarData (Except.ok p) t₁ cache lat lng).result := by
  have hstore := getFromCache_setCache (getCacheKey "solar" lat lng)
    (⟨some (avgValid p.irradianceSeries), some (avgValid p.tempSeries),
      (p.irradianceSeries.filter (fun v => decide (v ≠ -999))).length, true, none⟩ :
        SolarData)
    t₁ t₂ cache hsize httl
  refine ⟨?_, ?_, ?_⟩ <;>
    simp only [fetchSolarData, hmiss, hkey, hstore]

/-- Witness for C6: first query at t = 0 on the empty cache stores the
NASA record; the repeat at t = 1 (even with the provider now failing)
is served from cache. -/
theorem fetchSolarData_cache_idempotent_witness :
    (fetchSolarData (Except.ok ⟨[5], [30]⟩) 0 [] (238/10) (904/10)).called = true ∧
    (fetchSolarData (Except.error "down") 1
        (fetchSolarData (Except.ok ⟨[5], [30]⟩) 0 [] (238/10) (904/10)).cache
        (238/10) (904/10)).called = false ∧
    (fetchSolarData (Except.error "down") 1
        (fetchSolarData (Except.ok ⟨[5], [30]⟩) 0 [] (238/10) (904/10)).cache
        (238/10) (904/10)).result =
      (fetchSolarData (Except.ok ⟨[5], [30]⟩) 0 [] (238/10) (904/10)).result :=
  fetchSolarData_cache_idempotent ⟨[5], [30]⟩ (Except.error "down") [] 0 1
    (238/10) (904/10) (238/10) (904/10) rfl rfl (by decide) (by decide)

theorem string_append_ne_empty (s t : String) (hs : s ≠ "") : s ++ t ≠ "" := by
  intro h
  apply hs
  have hd := congrArg String.data h
  rw [String.data_append] at hd
  have hnil : s.data = [] := (List.append_eq_nil.mp hd).1
  apply String.ext
  simpa using hnil

/-- Counterexample to C7: on upstream failure `fetchPrecipitationData`
returns the regional-fallback record, which has `isReal = false` but a
present (non-null) `annualPrecipitation` of 2200 mm — so not every
`isReal = false` gateway result has all numeric fields absent. -/
theorem fetchPrecipitationData_fallback_counterexample :
    (fetchPrecipitationData (Except.error "timeout") 0 [] (238/10) (904/10)).result.isReal
        = false ∧
    (fetchPrecipitationData (Except.error "timeout") 0 []
        (238/10) (904/10)).result.annualPrecipitation = some 2200 := by
  constructor
  · with_unfolding_all rfl
  · with_unfolding_all rfl

/-- C7 amended: on a cache-missed upstream failure with a non-empty error
message, `fetchSolarData` returns all numeric fields null with a non-empty
note, `fetchTemperaturePoint` returns a null temperature with the error
message as note, and `fetchPrecipitationData` — the documented regional
fallback — returns `isReal = false` with the Bangladesh fallback values
present and a non-empty note. -/
theorem gateway_soft_failure_fields (msg : String) (now : ℤ)
    (cs : List (CacheEntry SolarData)) (ct : List (CacheEntry TempData))
    (cp : List (CacheEntry PrecipData)) (lat lng : ℚ)
    (hmsg : msg ≠ "")
    (h1 : getFromCache cs (getCacheKey "solar" lat lng) now = none)
    (h2 : getFromCache ct (getCacheKey "temp" lat lng) now = none)
    (h3 : getFromCache cp (getCacheKey "precip" lat lng) now = none) :
    ((fetchSolarData (Except.error msg) now cs lat lng).result.isReal = false ∧
     (fetchSolarData (Except.error msg) now cs lat lng).result.avgIrradiance = none ∧
     (fetchSolarData (Except.error msg) now cs lat lng).result.avgTemperature = none ∧
     (fetchSolarData (Except.error msg) now cs lat lng).result.note =
        some ("API Error: " ++ msg) ∧ ("API Error: " ++ msg) ≠ "") ∧
    ((fetchTemperaturePoint (Except.error msg) now ct lat lng).result.isReal = false ∧
     (fetchTemperaturePoint (Except.error msg) now ct lat lng).result.avgTemperature
        = none ∧
     (fetchTemperaturePoint (Except.error msg) now ct lat lng).result.note = some msg ∧
     msg ≠ "") ∧
    ((fetchPrecipitationData (Except.error msg) now cp lat lng).result.isReal = false ∧
     (fetchPrecipitationData (Except.error msg) now cp lat lng).result.annualPrecipitation
        = some typicalBangladeshRainfall ∧
     ∃ s, (fetchPrecipitationData (Except.error msg) now cp lat lng).result.note = some s ∧
        s ≠ "") := by
  refine ⟨⟨?_, ?_, ?_, ?_, ?_⟩, ⟨?_, ?_, ?_, ?_⟩, ⟨?_, ?_, ?_⟩⟩ <;>
      try simp only [fetchSolarData, fetchTemperaturePoint, fetchPrecipitationData,
        h1, h2, h3]
  · exact string_append_ne_empty "API Error: " msg (by decide)
  · exact hmsg
  · refine ⟨_, rfl, ?_⟩
    by_cases h429 : msg = "429"
    · rw [if_pos h429]; decide
    · rw [if_neg h429]; decide

/-- Witness for the amended C7 at a concrete failing call on empty
caches. -/
theorem gateway_soft_failure_fields_witness :
    ((fetchSolarData (Except.error "timeout") 0 [] (238/10) (904/10)).result.isReal
        = false ∧
     (fetchSolarData (Except.error "timeout") 0 []
        (238/10) (904/10)).result.avgIrradiance = none ∧
     (fetchSolarData (Except.error "timeout") 0 []
        (238/10) (904/10)).result.avgTemperature = none ∧
     (fetchSolarData (Except.error "timeout") 0 [] (238/10) (904/10)).result.note =
        some ("API Error: " ++ "timeout") ∧ ("API Error: " ++ "timeout") ≠ "") ∧
    ((fetchTemperaturePoint (Except.error "timeout") 0 []
        (238/10) (904/10)).result.isReal = false ∧
     (fetchTemperaturePoint (Except.error "timeout") 0 []
        (238/10) (904/10)).result.avgTemperature = none ∧
     (fetchTemperaturePoint (Except.error "timeout") 0 [] (238/10) (904/10)).result.note
        = some "timeout" ∧
     ("timeout" : String) ≠ "") ∧
    ((fetchPrecipitationData (Except.error "timeout") 0 []
        (238/10) (904/10)).result.isReal = false ∧
     (fetchPrecipitationData (Except.error "timeout") 0 []
        (238/10) (904/10)).result.annualPrecipitation = some typicalBangladeshRainfall ∧
     ∃ s, (fetchPrecipitationData (Except.error "timeout") 0 []
        (238/10) (904/10)).result.note = some s ∧ s ≠ "") :=
  gateway_soft_failure_fields "timeout" 0 [] [] [] (238/10) (904/10)
    (by decide) rfl rfl rfl

/-- C8 amended: an upstream failure never modifies the cache — in
particular the precipitation fallback record is returned WITHOUT being
stored, so a repeated failure contacts the provider again. -/
theorem soft_failures_not_cached (msg : String) (now : ℤ)
    (cs : List (CacheEntry SolarData)) (ct : List (CacheEntry TempData))
    (cp : List (CacheEntry PrecipData)) (lat lng : ℚ) :
    (fetchSolarData (Except.error msg) now cs lat lng).cache = cs ∧
    (fetchTemperaturePoint (Except.error msg) now ct lat lng).cache = ct ∧
    (fetchPrecipitationData (Except.error msg) now cp lat lng).cache = cp := by
  refine ⟨?_, ?_, ?_⟩
  · cases h : getFromCache cs (getCacheKey "solar" lat lng) now with
    | none => simp [fetchSolarData, h]
    | some r => simp [fetchSolarData, h]
  · cases h : getFromCache ct (getCacheKey "temp" lat lng) now with
    | none => simp [fetchTemperaturePoint, h]
    | some r => simp [fetchTemperaturePoint, h]
  · cases h : getFromCache cp (getCacheKey "precip" lat lng) now with
    | none => simp [fetchPrecipitationData, h]
    | some r => simp [fetchPrecipitationData, h]

/-- Counterexample to the second half of C8: after a failed precipitation fetch
the cache is still empty (the fallback was NOT stored), and an immediately
repeated failing fetch attempts the upstream provider again. -/
theorem fetchPrecipitationData_fallback_not_cached_counterexample :
    (fetchPrecipitationData (Except.error "timeout") 0 [] (238/10) (904/10)).cache = [] ∧
    (fetchPrecipitationData (Except.error "timeout") 1
        (fetchPrecipitationData (Except.error "timeout") 0 [] (238/10) (904/10)).cache
        (238/10) (904/10)).called = true := by
  constructor
  · with_unfolding_all rfl
  · with_unfolding_all rfl

/-- C9: on any cache-missed upstream failure, each gateway fetch function
returns a structurally valid tagged record — total functions here, so no
exception can cross the boundary — with `isReal = false` and a note
present. -/
theorem gateway_never_throws (msg : String) (now : ℤ)
    (cs : List (CacheEntry SolarData)) (ct : List (CacheEntry TempData))
    (cp : List (CacheEntry PrecipData)) (lat lng : ℚ)
    (h1 : getFromCache cs (getCacheKey "solar" lat lng) now = none)
    (h2 : getFromCache ct (getCacheKey "temp" lat lng) now = none)
    (h3 : getFromCache cp (getCacheKey "precip" lat lng) now = none) :
    ((fetchSolarData (Except.error msg) now cs lat lng).result.isReal = false ∧
     (fetchSolarData (Except.error msg) now cs lat lng).result.note.isSome = true) ∧
    ((fetchTemperaturePoint (Except.error msg) now ct lat lng).result.isReal = false ∧
     (fetchTemperaturePoint (Except.error msg) now ct lat lng).result.note.isSome
        = true) ∧
    ((fetchPrecipitationData (Except.error msg) now cp lat lng).result.isReal = false ∧
     (fetchPrecipitationData (Except.error msg) now cp lat lng).result.note.isSome
        = true) := by
  refine ⟨⟨?_, ?_⟩, ⟨?_, ?_⟩, ⟨?_, ?_⟩⟩ <;>
    simp only [fetchSolarData, fetchTemperaturePoint, fetchPrecipitationData,
      h1, h2, h3, Option.isSome_some]

/-- Witness for C9: a concrete timed-out call on empty caches. -/
theorem gateway_never_throws_witness :
    ((fetchSolarData (Except.error "timeout") 0 [] (238/10) (904/10)).result.isReal
        = false ∧
     (fetchSolarData (Except.error "timeout") 0 [] (238/10) (904/10)).result.note.isSome
        = true) ∧
    ((fetchTemperaturePoint (Except.error "timeout") 0 []
        (238/10) (904/10)).result.isReal = false ∧
     (fetchTemperaturePoint (Except.error "timeout") 0 []
        (238/10) (904/10)).result.note.isSome = true) ∧
    ((fetchPrecipitationData (Except.error "timeout") 0 []
        (238/10) (904/10)).result.isReal = false ∧
     (fetchPrecipitationData (Except.error "timeout") 0 []
        (238/10) (904/10)).result.note.isSome = true) :=
  gateway_never_throws "timeout" 0 [] [] [] (238/10) (904/10) rfl rfl rfl

/-! ## Parameter validation of POST /api/getRoofData (backend/server.js) -/

/-- Request body of `POST /api/getRoofData`; absent fields are `none`. -/
structure RoofRequest where
  latitude : Option ℚ
  longitude : Option ℚ
  area : Option ℚ
deriving DecidableEq

/-- Outcome of the validation prologue of the handler: either the 400 response
or permission to continue to the upstream fetches. -/
inductive RoofValidation where
  | badRequest : String → RoofValidation
  | proceed : RoofValidation
deriving DecidableEq

/-- The validation prologue of the `/api/getRoofData` handler:
`if (!latitude || !longitude || !area) return 400` — JavaScript truthiness,
so the number 0 is rejected like a missing field.  The boolean records
whether the handler goes on to call `fetchSolarData` /
`fetchPrecipitationData` (it does so only after this check passes). -/
def getRoofDataValidate (r : RoofRequest) : RoofValidation × Bool :=
  if truthyQ r.latitude = false ∨ truthyQ r.longitude = false ∨
      truthyQ r.area = false then
    (RoofValidation.badRequest "Missing required parameters: latitude, longitude, area",
      false)
  else (RoofValidation.proceed, true)

/-- C10: a request in which latitude, longitude or area equals 0 — a valid
equator/prime-meridian coordinate or a zero area — is answered with the
400 "Missing required parameters" response and no upstream fetch is
performed, because presence is tested by truthiness. -/
theorem getRoofData_zero_is_rejected (lat lng ar : Option ℚ)
    (h : lat = some 0 ∨ lng = some 0 ∨ ar = some 0) :
    getRoofDataValidate ⟨lat, lng, ar⟩ =
      (RoofValidation.badRequest "Missing required parameters: latitude, longitude, area",
        false) := by
  have ht : truthyQ lat = false ∨ truthyQ lng = false ∨ truthyQ ar = false := by
    rcases h with rfl | rfl | rfl
    · left; simp [truthyQ]
    · right; left; simp [truthyQ]
    · right; right; simp [truthyQ]
  simp only [getRoofDataValidate]
  rw [if_pos ht]

/-- Witness for C10: latitude 0 (on the equator) with valid longitude and
area is still rejected. -/
theorem getRoofData_zero_is_rejected_witness :
    getRoofDataValidate ⟨some 0, some (904/10), some 120⟩ =
      (RoofValidation.badRequest "Missing required parameters: latitude, longitude, area",
        false) :=
  getRoofData_zero_is_rejected (some 0) (some (904/10)) (some 120) (Or.inl rfl)
